import Mathlib

/-!
Verification development for the SIMS-AI-receptionist repository.

The embedding covers the query pipeline of `src/Backend/main.py`
(`get_embedding`, `get_llm_response`, `process_query`), the hybrid search
entry point of `src/Backend/rag_eval_pipeline.py` (`search_hybrid_bm25`),
and a reciprocal-rank-fusion engine modelled from the specification
(the fusion arithmetic itself is delegated to the Qdrant server by
`search_hybrid_bm25`, so it has no client-side implementation in the
repository).

Python strings are embedded as `List Char`; Python dictionaries used as
JSON payloads are embedded as association lists; fallible calls to
external services are embedded as `Except`-valued fields of an
environment record.
-/

namespace SIMS

/-- Characters of a Python string. -/
abbrev Str := List Char

/-- Error values carried by raised exceptions. -/
abbrev Err := Str

/-- A dense embedding vector (component values are irrelevant to the claims). -/
abbrev Vec := List Int

/-- A sparse (term-index, weight) vector. -/
abbrev SparseVec := List (Nat × Int)

/-- Unreduced fraction `num / den` over `Nat`; denominators are positive by
construction for every fraction built below. -/
structure Frac where
  num : Nat
  den : Nat
deriving DecidableEq

/-- The zero score. -/
def fracZero : Frac := ⟨0, 1⟩

/-- Exact addition of fractions, without reduction. -/
def fracAdd (a b : Frac) : Frac := ⟨a.num * b.den + b.num * a.den, a.den * b.den⟩

/-- Exact comparison `a ≥ b` of fractions by cross-multiplication. -/
def fracGe (a b : Frac) : Bool := b.num * a.den ≤ a.num * b.den

/-- Exact comparison `a > b` of fractions by cross-multiplication. -/
def fracGt (a b : Frac) : Bool := b.num * a.den < a.num * b.den

/-- Modelled from the spec: step 1 of the Fusion Engine (spec section 4.4),
which is missing from `src/` because `search_hybrid_bm25` delegates fusion
to the Qdrant server.  An identifier at 0-based position `rank` in one
ranked list contributes `1 / (k + rank + 1)`. -/
def rrfContrib (k rank : Nat) : Frac := ⟨1, k + rank + 1⟩

/-- Modelled from the spec: the contribution of one ranked list to one
identifier; an identifier absent from the list contributes 0. -/
def rrfScoreOne (k : Nat) (l : List Nat) (i : Nat) : Frac :=
  match l.findIdx? (fun j => j == i) with
  | some r => rrfContrib k r
  | none => fracZero

/-- Modelled from the spec: step 2 of the Fusion Engine, the summed score of
one identifier across all input ranked lists. -/
def rrfScore (k : Nat) (lists : List (List Nat)) (i : Nat) : Frac :=
  lists.foldl (fun acc l => fracAdd acc (rrfScoreOne k l i)) fracZero

/-- Candidate identifiers in order of first appearance, each kept once. -/
def dedupGo (seen : List Nat) : List Nat → List Nat
  | [] => []
  | x :: xs => if x ∈ seen then dedupGo seen xs else x :: dedupGo (x :: seen) xs

/-- Stable descending insertion: `x` is placed before the first element whose
score is strictly smaller, hence after every earlier element of equal score. -/
def insertByScore (x : Nat × Frac) : List (Nat × Frac) → List (Nat × Frac)
  | [] => [x]
  | y :: ys => if fracGt y.2 x.2 then y :: insertByScore x ys else x :: y :: ys

/-- Stable insertion sort by strictly descending score. -/
def sortByScoreDesc : List (Nat × Frac) → List (Nat × Frac)
  | [] => []
  | x :: xs => insertByScore x (sortByScoreDesc xs)

/-- Modelled from the spec: the Fusion Engine `fuse` (spec section 4.4) —
reciprocal rank fusion over exact rational scores, sorted by descending
summed score, ties broken stably by first appearance across the input
lists (first list first). -/
def rrfFuse (lists : List (List Nat)) (k : Nat) : List Nat :=
  let ids := dedupGo [] lists.flatten
  let scored := ids.map (fun i => (i, rrfScore k lists i))
  (sortByScoreDesc scored).map Prod.fst

/-- The apostrophe character, used to assemble string constants of the source. -/
def apos : Char := Char.ofNat 39

/-- The fixed refusal phrase of `main.py` (lines 96 and 127). -/
def refusalStr : Str :=
  ("I don").toList ++ [apos] ++ ("t have enough information to answer that.").toList

/-- The fallback answer of `get_llm_response` when the model response has no
text attribute (`main.py` line 121). -/
def noResponseStr : Str := ("No response from LLM.").toList

/-- Key of the text field in a Qdrant payload. -/
def keyText : Str := ("text").toList

/-- Key named by the spec for source records; the code never emits it. -/
def keyId : Str := ("id").toList

/-- The context-entry header of `main.py` lines 154 and 156. -/
def contentHeaderStr : Str := ("Content: ").toList

/-- The placeholder written for hits without usable text (`main.py` line 156). -/
def naStr : Str := ("N/A").toList

/-- The entry separator of `main.py` lines 154 and 156. -/
def sepStr : Str := ("\n\n").toList

/-- Does the list start with the three characters `N`, `/`, `A`? -/
def startsWithNA : Str → Bool
  | c1 :: c2 :: c3 :: _ => c1 == 'N' && c2 == '/' && c3 == 'A'
  | _ => false

/-- Embedding of the Python substring test `"N/A" in s` (`main.py` line 158),
specialised to the fixed needle of the source. -/
def hasNA : Str → Bool
  | [] => false
  | c :: rest => startsWithNA (c :: rest) || hasNA rest

/-- A Qdrant scored point as consumed by `process_query`: an identifier and a
payload.  `none` embeds a Python `None` payload; `some entries` embeds a
payload dictionary as an association list. -/
structure Hit where
  id : Nat
  payload : Option (List (Str × Str))
deriving DecidableEq

/-- Python truthiness of `hit.payload`: `None` and the empty dictionary are
falsy, a non-empty dictionary is truthy. -/
def payloadTruthy : Option (List (Str × Str)) → Bool
  | some (_ :: _) => true
  | _ => false

/-- The value of the `text` key of a payload, when the payload is a dictionary
holding that key (`'text' in hit.payload` and `hit.payload.get('text')`). -/
def payloadText : Option (List (Str × Str)) → Option Str
  | some entries => entries.lookup keyText
  | none => none

/-- One iteration of the context loop of `main.py` lines 151-156: a hit with a
truthy payload holding a `text` key contributes its text, any other hit
contributes the `N/A` placeholder. -/
def contextEntry (h : Hit) : Str :=
  if payloadTruthy h.payload && (payloadText h.payload).isSome then
    contentHeaderStr ++ (payloadText h.payload).getD [] ++ sepStr
  else
    contentHeaderStr ++ naStr ++ sepStr

/-- The accumulated context string of `main.py` lines 150-156 (the `+=` loop,
written as left-to-right concatenation). -/
def buildContext : List Hit → Str
  | [] => []
  | h :: rest => contextEntry h ++ buildContext rest

/-- A source record of `main.py` line 167: a one-key dictionary
`{"text": hit.payload.get('text', 'N/A')}`.  (For a `None` payload the Python
expression would raise, but line 167 is only reached when every payload holds
a `text` key, so the default branch is unreachable there.) -/
def sourceRecord (h : Hit) : List (Str × Str) :=
  [(keyText, (payloadText h.payload).getD naStr)]

/-- Response of a `generate_content` call as consumed by `get_llm_response`:
`text` is `some` when the response object has a `text` attribute, and
`citations` holds the already-extracted grounding attributions of
lines 107-118 (never inspected by `process_query`). -/
structure GenResponse where
  text : Option Str
  citations : List (Str × Str)
deriving DecidableEq

/-- External collaborators of `main.py`, as fallible functions:
`embedAttempt text n` is the n-th attempt (1-based) of the embedding provider
for `text`; `search v limit` is the Qdrant dense similarity search;
`generate prompt` is the generative-model call. -/
structure Env where
  embedAttempt : Str → Nat → Except Err Vec
  search : Vec → Nat → Except Err (List Hit)
  generate : Str → Except Err GenResponse

/-- The tenacity retry loop: run attempt `attemptNumber`; on failure, if
retries remain, move to the next attempt, otherwise let the final error
propagate (tenacity wraps it in a RetryError, embedded here as the error
value itself). -/
def retryCall (f : Nat → Except Err Vec) : Nat → Nat → Except Err Vec
  | attemptNumber, 0 => f attemptNumber
  | attemptNumber, Nat.succ r =>
    match f attemptNumber with
    | Except.ok v => Except.ok v
    | Except.error _ => retryCall f (attemptNumber + 1) r

/-- The `stop_after_attempt(5)` bound of `main.py` line 77. -/
def stopAfterAttempts : Nat := 5

/-- The tenacity `wait_exponential` delay (in seconds) before the retry that
follows attempt `attemptNumber`: `multiplier * 2 ^ (attemptNumber - 1)`,
clamped between `mn` and `mx`. -/
def wait_exponential (multiplier mn mx attemptNumber : Nat) : Nat :=
  Nat.max (Nat.max 0 mn) (Nat.min (multiplier * 2 ^ (attemptNumber - 1)) mx)

/-- The delay policy configured on `get_embedding`
(`wait_exponential(multiplier=1, min=4, max=10)`, `main.py` line 77). -/
def embeddingWait (attemptNumber : Nat) : Nat :=
  wait_exponential 1 4 10 attemptNumber

/-- Embedding of `get_embedding` (`main.py` lines 77-90): the provider call
(whose internal `except` clause re-raises, leaving the error unchanged) under
the retry decorator with 5 attempts. -/
def get_embedding (env : Env) (text : Str) : Except Err Vec :=
  retryCall (env.embedAttempt text) 1 (stopAfterAttempts - 1)

/-- Result of `get_llm_response`: the dictionary with `answer` and
`citations`. -/
structure LLMResult where
  answer : Str
  citations : List (Str × Str)
deriving DecidableEq

/-- The instruction prompt built by `get_llm_response` (`main.py`
lines 94-98). -/
def fullPrompt (prompt context : Str) : Str :=
  ("You are a helpful assistant. Use the following context to answer the question. If the answer is not in the context, say ").toList
    ++ [apos] ++ refusalStr ++ [apos] ++ (".").toList ++ sepStr
    ++ ("Context: ").toList ++ context ++ sepStr
    ++ ("Question: ").toList ++ prompt ++ sepStr
    ++ ("Answer:").toList

/-- Embedding of `get_llm_response` (`main.py` lines 92-127): a failing model
call is caught and converted to the fixed refusal phrase; a completed call
answers with its text attribute, or with `No response from LLM.` when that
attribute is missing. -/
def get_llm_response (env : Env) (prompt context : Str) : LLMResult :=
  match env.generate (fullPrompt prompt context) with
  | Except.error _ => ⟨refusalStr, []⟩
  | Except.ok resp => ⟨resp.text.getD noResponseStr, resp.citations⟩

/-- Value returned by the `/query` handler: a JSON response (with the `query`
key present only on the successful branch, `main.py` lines 159 and 164-168)
or an HTTPException. -/
inductive QueryResult where
  | ok (query : Option Str) (answer : Str) (sources : List (List (Str × Str)))
  | httpError (code : Nat) (detail : Err)
deriving DecidableEq

/-- The tail of `process_query` after a successful search (`main.py`
lines 149-168): build the context, return the refusal response when the
context is empty or contains `N/A`, otherwise answer through the model with
one source record per hit. -/
def afterSearch (env : Env) (q : Str) (hits : List Hit) : QueryResult :=
  if (buildContext hits).isEmpty || hasNA (buildContext hits) then
    QueryResult.ok none refusalStr []
  else
    QueryResult.ok (some q) (get_llm_response env q (buildContext hits)).answer
      (hits.map sourceRecord)

/-- Embedding of `process_query` (`main.py` lines 130-171): embed the query,
search Qdrant with limit 6, then `afterSearch`; any exception escaping the
body is converted to an HTTPException with status 500. -/
def process_query (env : Env) (q : Str) : QueryResult :=
  match get_embedding env q with
  | Except.error e => QueryResult.httpError 500 e
  | Except.ok qv =>
    match env.search qv 6 with
    | Except.error e => QueryResult.httpError 500 e
    | Except.ok hits => afterSearch env q hits

/-- An HTTP-level response of the endpoint: either the handler result or a
client error produced by request validation. -/
inductive HttpResponse where
  | success (r : QueryResult)
  | clientError (code : Nat)
deriving DecidableEq

/-- Validation performed by the pydantic model `QueryRequest` (`main.py`
lines 37-38): the `query` field must be present and a string; no other
constraint (in particular no emptiness check).  The inbound field is embedded
as `Option Str`, `none` meaning the field is missing. -/
def queryRequestValidate : Option Str → Except Err Str
  | some q => Except.ok q
  | none => Except.error (("field required").toList)

/-- The `/query` endpoint: pydantic validation, then the handler. -/
def endpointQuery (env : Env) (body : Option Str) : HttpResponse :=
  match queryRequestValidate body with
  | Except.error _ => HttpResponse.clientError 422
  | Except.ok q => HttpResponse.success (process_query env q)

/-- External collaborators of `search_hybrid_bm25`
(`rag_eval_pipeline.py` lines 118-128): the query embedding call, the SPLADE
sparse encoder, and the server-side fused `query_points` call. -/
structure EvalEnv where
  embedQuery : Str → Except Err Vec
  sparseEncode : Str → Except Err SparseVec
  queryPoints : Vec → SparseVec → Nat → Except Err (List Hit)

/-- Embedding of `search_hybrid_bm25` (`rag_eval_pipeline.py` lines 118-128):
dense embedding, then sparse encoding, then the fused server-side query, in
source evaluation order; no failure of any step is caught. -/
def search_hybrid_bm25 (env : EvalEnv) (query : Str) (top_k : Nat) :
    Except Err (List Nat) :=
  match env.embedQuery query with
  | Except.error e => Except.error e
  | Except.ok dense =>
    match env.sparseEncode query with
    | Except.error e => Except.error e
    | Except.ok sp =>
      match env.queryPoints dense sp top_k with
      | Except.error e => Except.error e
      | Except.ok pts => Except.ok (pts.map Hit.id)

/-- A hit with a payload dictionary holding usable text. -/
def hitHello : Hit := ⟨7, some [(keyText, ("hello").toList)]⟩

/-- A hit whose payload is Python `None`. -/
def hitNone : Hit := ⟨1, none⟩

/-- A hit whose payload text itself holds the substring `N/A`. -/
def hitNAText : Hit := ⟨3, some [(keyText, ("fee: N/A today").toList)]⟩

/-- An environment in which every external call succeeds and the search
returns one hit with usable text. -/
def envSuccess : Env :=
  { embedAttempt := fun _ _ => Except.ok [1]
    search := fun _ _ => Except.ok [hitHello]
    generate := fun _ => Except.ok ⟨some (("Hi there.").toList), []⟩ }

/-- An environment whose search returns zero hits. -/
def envEmptyHits : Env :=
  { embedAttempt := fun _ _ => Except.ok [1]
    search := fun _ _ => Except.ok []
    generate := fun _ => Except.ok ⟨some (("Hi there.").toList), []⟩ }

/-- An environment whose embedding provider fails on every attempt. -/
def envEmbedFail : Env :=
  { embedAttempt := fun _ _ => Except.error (("boom").toList)
    search := fun _ _ => Except.ok [hitHello]
    generate := fun _ => Except.ok ⟨some (("Hi there.").toList), []⟩ }

/-- An environment whose generative-model call raises. -/
def envGenFail : Env :=
  { embedAttempt := fun _ _ => Except.ok [1]
    search := fun _ _ => Except.ok [hitHello]
    generate := fun _ => Except.error (("llm down").toList) }

/-- An environment whose generative-model call completes without a text
attribute on the response. -/
def envGenNoText : Env :=
  { embedAttempt := fun _ _ => Except.ok [1]
    search := fun _ _ => Except.ok [hitHello]
    generate := fun _ => Except.ok ⟨none, []⟩ }

/-- An environment whose search returns one hit without payload followed by
one hit with usable text. -/
def envMissingPayload : Env :=
  { embedAttempt := fun _ _ => Except.ok [1]
    search := fun _ _ => Except.ok [hitNone, hitHello]
    generate := fun _ => Except.ok ⟨some (("Hi there.").toList), []⟩ }

/-- An environment whose search returns a usable hit followed by a hit whose
payload text holds the substring `N/A`. -/
def envNAText : Env :=
  { embedAttempt := fun _ _ => Except.ok [1]
    search := fun _ _ => Except.ok [hitHello, hitNAText]
    generate := fun _ => Except.ok ⟨some (("Hi there.").toList), []⟩ }

/-- An evaluation environment whose sparse encoder raises while the dense
channel works. -/
def evalEnvSparseFail : EvalEnv :=
  { embedQuery := fun _ => Except.ok [1, 2]
    sparseEncode := fun _ => Except.error (("sparse failure").toList)
    queryPoints := fun _ _ _ => Except.ok [hitHello] }

/-- Helper: a list starting with `N/A` still starts with `N/A` after data is
appended on the right. -/
theorem startsWithNA_append (a b : Str) (h : startsWithNA a = true) :
    startsWithNA (a ++ b) = true := by
  match a with
  | [] => exact Bool.noConfusion h
  | [c1] => exact Bool.noConfusion h
  | [c1, c2] => exact Bool.noConfusion h
  | c1 :: c2 :: c3 :: rest => exact h

/-- Helper: the substring test is preserved by appending on the right. -/
theorem hasNA_append_left (a b : Str) (h : hasNA a = true) :
    hasNA (a ++ b) = true := by
  induction a with
  | nil => exact Bool.noConfusion h
  | cons c a ih =>
    simp only [hasNA] at h
    simp only [List.cons_append, hasNA]
    rcases Bool.or_eq_true_iff.mp h with h1 | h2
    · have h3 : startsWithNA ((c :: a) ++ b) = true := startsWithNA_append (c :: a) b h1
      rw [List.cons_append] at h3
      exact Bool.or_eq_true_iff.mpr (Or.inl h3)
    · exact Bool.or_eq_true_iff.mpr (Or.inr (ih h2))

/-- Helper: the substring test is preserved by appending on the left. -/
theorem hasNA_append_right (a b : Str) (h : hasNA b = true) :
    hasNA (a ++ b) = true := by
  induction a with
  | nil => simpa using h
  | cons c a ih =>
    simp only [List.cons_append, hasNA]
    exact Bool.or_eq_true_iff.mpr (Or.inr ih)

/-- Helper: a falsy payload has no text value. -/
theorem payloadText_of_not_truthy (p : Option (List (Str × Str)))
    (hp : payloadTruthy p = false) : payloadText p = none := by
  match p with
  | none => rfl
  | some [] => rfl
  | some (e :: es) => exact absurd hp (by simp [payloadTruthy])

/-- Helper: a payload holding a text value is truthy. -/
theorem payloadTruthy_of_text (p : Option (List (Str × Str))) (t : Str)
    (ht : payloadText p = some t) : payloadTruthy p = true := by
  match p with
  | none => exact Option.noConfusion ht
  | some [] => exact Option.noConfusion ht
  | some (e :: es) => rfl

/-- Helper: a hit without a usable text value contributes the `N/A`
placeholder entry. -/
theorem contextEntry_of_noText (h : Hit) (hmiss : payloadText h.payload = none) :
    contextEntry h = contentHeaderStr ++ naStr ++ sepStr := by
  unfold contextEntry
  rw [hmiss]
  simp

/-- Helper: a hit with a usable text value contributes that text between the
header and the separator. -/
theorem contextEntry_of_text (h : Hit) (t : Str) (ht : payloadText h.payload = some t) :
    contextEntry h = contentHeaderStr ++ t ++ sepStr := by
  unfold contextEntry
  rw [payloadTruthy_of_text h.payload t ht, ht]
  simp

/-- Helper: the `N/A` placeholder entry passes the substring test. -/
theorem hasNA_naEntry : hasNA (contentHeaderStr ++ naStr ++ sepStr) = true := by
  decide

/-- Helper: a context entry whose payload text holds `N/A` passes the
substring test. -/
theorem hasNA_contextEntry_of_text (h : Hit) (t : Str)
    (ht : payloadText h.payload = some t) (hna : hasNA t = true) :
    hasNA (contextEntry h) = true := by
  rw [contextEntry_of_text h t ht]
  exact hasNA_append_left _ _ (hasNA_append_right _ _ hna)

/-- Helper: one flagged entry makes the whole accumulated context pass the
substring test. -/
theorem hasNA_buildContext_of_mem (hits : List Hit) (h : Hit) (hmem : h ∈ hits)
    (hna : hasNA (contextEntry h) = true) : hasNA (buildContext hits) = true := by
  induction hits with
  | nil => cases hmem
  | cons a rest ih =>
    rcases List.mem_cons.mp hmem with rfl | hmem2
    · exact hasNA_append_left _ _ hna
    · exact hasNA_append_right _ _ (ih hmem2)

/-- Helper: with a successful embedding and search, the handler reduces to its
post-search tail. -/
theorem process_query_ok (env : Env) (q : Str) (qv : Vec) (hits : List Hit)
    (hemb : get_embedding env q = Except.ok qv)
    (hsearch : env.search qv 6 = Except.ok hits) :
    process_query env q = afterSearch env q hits := by
  simp only [process_query, hemb, hsearch]

/-- Helper: an embedding failure becomes an HTTPException with status 500. -/
theorem process_query_embed_error (env : Env) (q : Str) (e : Err)
    (he : get_embedding env q = Except.error e) :
    process_query env q = QueryResult.httpError 500 e := by
  simp only [process_query, he]

/-- Helper: an empty or `N/A`-tainted context yields the refusal response. -/
theorem afterSearch_refusal (env : Env) (q : Str) (hits : List Hit)
    (hcond : ((buildContext hits).isEmpty || hasNA (buildContext hits)) = true) :
    afterSearch env q hits = QueryResult.ok none refusalStr [] := by
  simp [afterSearch, hcond]

/-- Helper: a clean context yields the generated answer with one source
record per hit. -/
theorem afterSearch_success (env : Env) (q : Str) (hits : List Hit)
    (hcond : ((buildContext hits).isEmpty || hasNA (buildContext hits)) = false) :
    afterSearch env q hits =
      QueryResult.ok (some q) (get_llm_response env q (buildContext hits)).answer
        (hits.map sourceRecord) := by
  simp [afterSearch, hcond]

/-- Helper: one failed attempt moves the retry loop to the next attempt. -/
theorem retryCall_error_step (f : Nat → Except Err Vec) (att r : Nat) (e : Err)
    (h : f att = Except.error e) :
    retryCall f att (Nat.succ r) = retryCall f (att + 1) r := by
  show (match f att with
    | Except.ok v => Except.ok v
    | Except.error _ => retryCall f (att + 1) r) = retryCall f (att + 1) r
  rw [h]

/-- Helper: when every attempt fails, the retry loop propagates the error of
the final attempt. -/
theorem retryCall_allFail (f : Nat → Except Err Vec) (err : Nat → Err)
    (hfail : ∀ n, f n = Except.error (err n)) :
    ∀ r att, retryCall f att r = Except.error (err (att + r)) := by
  intro r
  induction r with
  | zero =>
    intro att
    rw [Nat.add_zero]
    exact hfail att
  | succ r ih =>
    intro att
    have harith : att + 1 + r = att + Nat.succ r := by omega
    rw [retryCall_error_step f att r (err att) (hfail att), ih (att + 1), harith]

/-- Helper: a vector returned by the retry loop is the unchanged value of one
successful attempt within the attempt window. -/
theorem retryCall_ok_src (f : Nat → Except Err Vec) :
    ∀ r att v, retryCall f att r = Except.ok v →
      ∃ n, att ≤ n ∧ n ≤ att + r ∧ f n = Except.ok v := by
  intro r
  induction r with
  | zero =>
    intro att v h
    exact ⟨att, Nat.le_refl att, Nat.le_add_right att 0, h⟩
  | succ r ih =>
    intro att v h
    cases hf : f att with
    | ok w =>
      have hval : retryCall f att (Nat.succ r) = Except.ok w := by
        show (match f att with
          | Except.ok v => Except.ok v
          | Except.error _ => retryCall f (att + 1) r) = Except.ok w
        rw [hf]
      rw [hval] at h
      cases h
      exact ⟨att, Nat.le_refl att, Nat.le_add_right att _, hf⟩
    | error e =>
      rw [retryCall_error_step f att r e hf] at h
      obtain ⟨n, h1, h2, h3⟩ := ih (att + 1) v h
      exact ⟨n, by omega, by omega, h3⟩

/-- Helper: the configured embedding retry delay never exceeds 10 seconds. -/
theorem embeddingWait_le_ten (n : Nat) : embeddingWait n ≤ 10 := by
  unfold embeddingWait wait_exponential
  exact Nat.max_le.mpr ⟨by decide, Nat.min_le_right _ _⟩

/-- C1: for dense list `[1,2,3]`, sparse list `[2,4,1]` and `k = 60`, the
RRF output order by descending summed score is exactly `[2, 1, 4, 3]`, and
the four summed scores are strictly descending in that order. -/
theorem C1_rrf_scenario_a :
    rrfFuse [[1, 2, 3], [2, 4, 1]] 60 = [2, 1, 4, 3] ∧
    fracGt (rrfScore 60 [[1, 2, 3], [2, 4, 1]] 2)
      (rrfScore 60 [[1, 2, 3], [2, 4, 1]] 1) = true ∧
    fracGt (rrfScore 60 [[1, 2, 3], [2, 4, 1]] 1)
      (rrfScore 60 [[1, 2, 3], [2, 4, 1]] 4) = true ∧
    fracGt (rrfScore 60 [[1, 2, 3], [2, 4, 1]] 4)
      (rrfScore 60 [[1, 2, 3], [2, 4, 1]] 3) = true := by
  decide

/-- C2 counterexample: with a working dense channel and a failing sparse
encoder, `search_hybrid_bm25` propagates the exception instead of succeeding
on dense results alone — the overall query fails. -/
theorem C2_counterexample :
    search_hybrid_bm25 evalEnvSparseFail (("q").toList) 5 =
      Except.error (("sparse failure").toList) := by
  rfl

/-- C2 amended: when the sparse encoding fails, `search_hybrid_bm25` (which
has no exception handler) propagates the failure and the whole query fails;
there is no degradation to dense-only results.  (`process_query` of `main.py`
has no sparse channel at all.) -/
theorem C2_amended_sparse_error_propagates (env : EvalEnv) (q : Str) (k : Nat)
    (d : Vec) (e : Err) (hd : env.embedQuery q = Except.ok d)
    (hs : env.sparseEncode q = Except.error e) :
    search_hybrid_bm25 env q k = Except.error e := by
  simp only [search_hybrid_bm25, hd, hs]

/-- C2 amended, witness at a concrete environment. -/
theorem C2_amended_witness :
    search_hybrid_bm25 evalEnvSparseFail (("hours").toList) 5 =
      Except.error (("sparse failure").toList) :=
  C2_amended_sparse_error_propagates evalEnvSparseFail (("hours").toList) 5
    [1, 2] (("sparse failure").toList) rfl rfl

/-- C3: when the search returns zero hits, or every hit has an empty (falsy)
payload, the endpoint returns exactly the refusal answer with empty sources
and no `query` key, and the generative model is never consulted: the response
is unchanged under any replacement of the generation function. -/
theorem C3_empty_retrieval_refusal (env : Env) (q : Str) (qv : Vec)
    (hits : List Hit) (hemb : get_embedding env q = Except.ok qv)
    (hsearch : env.search qv 6 = Except.ok hits)
    (hcond : hits = [] ∨ ∀ h ∈ hits, payloadTruthy h.payload = false) :
    process_query env q = QueryResult.ok none refusalStr [] ∧
    ∀ g : Str → Except Err GenResponse,
      process_query { env with generate := g } q =
        QueryResult.ok none refusalStr [] := by
  have hrefusal :
      ((buildContext hits).isEmpty || hasNA (buildContext hits)) = true := by
    rcases hcond with rfl | hall
    · rfl
    · cases hits with
      | nil => rfl
      | cons h rest =>
        have hmiss : payloadText h.payload = none :=
          payloadText_of_not_truthy _ (hall h (List.mem_cons_self h rest))
        have hna : hasNA (contextEntry h) = true := by
          rw [contextEntry_of_noText h hmiss]
          exact hasNA_naEntry
        have h2 : hasNA (buildContext (h :: rest)) = true :=
          hasNA_buildContext_of_mem _ h (List.mem_cons_self h rest) hna
        rw [h2, Bool.or_true]
  constructor
  · rw [process_query_ok env q qv hits hemb hsearch]
    exact afterSearch_refusal env q hits hrefusal
  · intro g
    have hemb2 : get_embedding { env with generate := g } q = Except.ok qv := hemb
    have hsearch2 : ({ env with generate := g } : Env).search qv 6 =
      Except.ok hits := hsearch
    rw [process_query_ok _ q qv hits hemb2 hsearch2]
    exact afterSearch_refusal _ q hits hrefusal

/-- C3 witness: zero hits at a concrete environment. -/
theorem C3_witness :
    process_query envEmptyHits (("q").toList) =
      QueryResult.ok none refusalStr [] :=
  (C3_empty_retrieval_refusal envEmptyHits (("q").toList) [1] [] rfl rfl
    (Or.inl rfl)).1

/-- C4 counterexample: a fully successful query whose source record is the
one-key dictionary holding only `text` — no `id` key is present, so the
record does not have the spec shape `{id, text}`. -/
theorem C4_counterexample :
    process_query envSuccess (("who").toList) =
      QueryResult.ok (some (("who").toList)) (("Hi there.").toList)
        [[(keyText, ("hello").toList)]] ∧
    (([(keyText, ("hello").toList)] : List (Str × Str)).map Prod.fst).contains
      keyId = false := by
  exact ⟨rfl, by decide⟩

/-- C4 amended: for every successful query, the response carries the echoed
query, the generated answer, and one source record per hit in dense search
order; there are at most 6 records whenever the index honours the limit, and
every record is the one-key dictionary holding only `text` (no `id` key is
emitted). -/
theorem C4_amended_sources_shape (env : Env) (q : Str) (qv : Vec)
    (hits : List Hit) (hemb : get_embedding env q = Except.ok qv)
    (hsearch : env.search qv 6 = Except.ok hits) (hlen : hits.length ≤ 6)
    (hcond : ((buildContext hits).isEmpty || hasNA (buildContext hits)) = false) :
    process_query env q =
      QueryResult.ok (some q) (get_llm_response env q (buildContext hits)).answer
        (hits.map sourceRecord) ∧
    (hits.map sourceRecord).length ≤ 6 ∧
    ∀ r ∈ hits.map sourceRecord, r.map Prod.fst = [keyText] := by
  refine ⟨?_, ?_, ?_⟩
  · rw [process_query_ok env q qv hits hemb hsearch]
    exact afterSearch_success env q hits hcond
  · rw [List.length_map]
    exact hlen
  · intro r hr
    rcases List.mem_map.mp hr with ⟨h, hmem, rfl⟩
    rfl

/-- C4 amended, witness at a concrete environment. -/
theorem C4_amended_witness :
    process_query envSuccess (("who").toList) =
      QueryResult.ok (some (("who").toList))
        (get_llm_response envSuccess (("who").toList)
          (buildContext [hitHello])).answer
        ([hitHello].map sourceRecord) ∧
    ([hitHello].map sourceRecord).length ≤ 6 := by
  have t := C4_amended_sources_shape envSuccess (("who").toList) [1] [hitHello]
    rfl rfl (by decide) (by decide)
  exact ⟨t.1, t.2.1⟩

/-- C5 counterexample: the empty query is not rejected — pydantic accepts it
and the handler processes it through the full retrieval pipeline, returning a
success response with retrieved sources. -/
theorem C5_counterexample :
    endpointQuery envSuccess (some []) =
      HttpResponse.success
        (QueryResult.ok (some []) (("Hi there.").toList)
          [[(keyText, ("hello").toList)]]) := by
  rfl

/-- C5 amended: request validation only requires the `query` field to be a
string, so the empty query passes validation and is processed like any other:
embedding and search are performed and the response is a normal success built
from the retrieved hits. -/
theorem C5_amended_empty_query_processed (env : Env) (qv : Vec)
    (hits : List Hit) (hemb : get_embedding env [] = Except.ok qv)
    (hsearch : env.search qv 6 = Except.ok hits)
    (hcond : ((buildContext hits).isEmpty || hasNA (buildContext hits)) = false) :
    endpointQuery env (some []) =
      HttpResponse.success
        (QueryResult.ok (some [])
          (get_llm_response env [] (buildContext hits)).answer
          (hits.map sourceRecord)) := by
  show HttpResponse.success (process_query env []) = _
  rw [process_query_ok env [] qv hits hemb hsearch,
    afterSearch_success env [] hits hcond]

/-- C5 amended, witness at a concrete environment. -/
theorem C5_amended_witness :
    endpointQuery envSuccess (some []) =
      HttpResponse.success
        (QueryResult.ok (some [])
          (get_llm_response envSuccess [] (buildContext [hitHello])).answer
          ([hitHello].map sourceRecord)) :=
  C5_amended_empty_query_processed envSuccess [1] [hitHello] rfl rfl (by decide)

/-- C6: the embedding call is retried under the exponential-backoff policy
with exactly 5 attempts and per-retry delays capped at 10 seconds; when every
attempt fails, the error of the last attempt propagates and the whole query
fails with an HTTPException; and any vector ever returned by the retry loop
is the unmodified result of one actual provider attempt within the window —
never a synthesized vector. -/
theorem C6_embedding_retry (env : Env) (q : Str) (err : Nat → Err)
    (hfail : ∀ n, env.embedAttempt q n = Except.error (err n)) :
    get_embedding env q = Except.error (err 5) ∧
    process_query env q = QueryResult.httpError 500 (err 5) ∧
    (∀ n, embeddingWait n ≤ 10) ∧
    (∀ f : Nat → Except Err Vec, ∀ v : Vec,
      retryCall f 1 (stopAfterAttempts - 1) = Except.ok v →
      ∃ n, 1 ≤ n ∧ n ≤ stopAfterAttempts ∧ f n = Except.ok v) := by
  have hget : get_embedding env q = Except.error (err 5) := by
    have h := retryCall_allFail (env.embedAttempt q) err hfail 4 1
    simpa using h
  refine ⟨hget, process_query_embed_error env q (err 5) hget,
    embeddingWait_le_ten, ?_⟩
  intro f v h
  obtain ⟨n, h1, h2, h3⟩ := retryCall_ok_src f 4 1 v h
  refine ⟨n, h1, ?_, h3⟩
  unfold stopAfterAttempts
  omega

/-- C6 witness: an always-failing provider at a concrete environment. -/
theorem C6_witness :
    get_embedding envEmbedFail (("q").toList) =
      Except.error (("boom").toList) ∧
    process_query envEmbedFail (("q").toList) =
      QueryResult.httpError 500 (("boom").toList) := by
  have t := C6_embedding_retry envEmbedFail (("q").toList)
    (fun _ => ("boom").toList) (fun _ => rfl)
  exact ⟨t.1, t.2.1⟩

/-- C7: when the generative-model call raises, the caught failure yields the
fixed refusal phrase as the answer while the sources are still the records
computed from retrieval. -/
theorem C7_generation_failure (env : Env) (q : Str) (qv : Vec) (hits : List Hit)
    (e : Err) (hemb : get_embedding env q = Except.ok qv)
    (hsearch : env.search qv 6 = Except.ok hits)
    (hcond : ((buildContext hits).isEmpty || hasNA (buildContext hits)) = false)
    (hgen : env.generate (fullPrompt q (buildContext hits)) = Except.error e) :
    process_query env q =
      QueryResult.ok (some q) refusalStr (hits.map sourceRecord) := by
  rw [process_query_ok env q qv hits hemb hsearch,
    afterSearch_success env q hits hcond]
  have hllm : get_llm_response env q (buildContext hits) = ⟨refusalStr, []⟩ := by
    simp only [get_llm_response, hgen]
  rw [hllm]

/-- C7 witness: a raising generative model at a concrete environment. -/
theorem C7_witness :
    process_query envGenFail (("q").toList) =
      QueryResult.ok (some (("q").toList)) refusalStr
        ([hitHello].map sourceRecord) :=
  C7_generation_failure envGenFail (("q").toList) [1] [hitHello]
    (("llm down").toList) rfl rfl (by decide) rfl

/-- C8 counterexample: when the generative call completes but the response
has no text, the returned answer is `No response from LLM.`, which differs
from the fixed refusal phrase. -/
theorem C8_counterexample :
    process_query envGenNoText (("q").toList) =
      QueryResult.ok (some (("q").toList)) noResponseStr
        [[(keyText, ("hello").toList)]] ∧
    noResponseStr ≠ refusalStr := by
  exact ⟨rfl, by decide⟩

/-- C8 amended: when the generative call completes without a text attribute,
the answer returned is the fallback `No response from LLM.` — not the refusal
phrase — while the sources are still the records computed from retrieval. -/
theorem C8_amended_no_text (env : Env) (q : Str) (qv : Vec) (hits : List Hit)
    (cits : List (Str × Str)) (hemb : get_embedding env q = Except.ok qv)
    (hsearch : env.search qv 6 = Except.ok hits)
    (hcond : ((buildContext hits).isEmpty || hasNA (buildContext hits)) = false)
    (hgen : env.generate (fullPrompt q (buildContext hits)) =
      Except.ok ⟨none, cits⟩) :
    process_query env q =
      QueryResult.ok (some q) noResponseStr (hits.map sourceRecord) := by
  rw [process_query_ok env q qv hits hemb hsearch,
    afterSearch_success env q hits hcond]
  have hllm : get_llm_response env q (buildContext hits) =
      ⟨noResponseStr, cits⟩ := by
    simp only [get_llm_response, hgen]
    rfl
  rw [hllm]

/-- C8 amended, witness at a concrete environment. -/
theorem C8_amended_witness :
    process_query envGenNoText (("q").toList) =
      QueryResult.ok (some (("q").toList)) noResponseStr
        ([hitHello].map sourceRecord) :=
  C8_amended_no_text envGenNoText (("q").toList) [1] [hitHello] [] rfl rfl
    (by decide) rfl

/-- C9 counterexample: with one hit lacking a payload and one usable hit, the
identifier without payload is not dropped — it contributes the `N/A`
placeholder entry — and assembly does not proceed with the remaining text:
the whole query collapses to the refusal response with empty sources. -/
theorem C9_counterexample :
    buildContext [hitNone, hitHello] =
      (("Content: N/A")).toList ++ sepStr ++ (("Content: hello")).toList ++ sepStr ∧
    process_query envMissingPayload (("q").toList) =
      QueryResult.ok none refusalStr [] := by
  exact ⟨by decide, rfl⟩

/-- C9 amended: an identifier with no usable text payload is not dropped: its
placeholder entry taints the context and the handler returns the refusal
response with empty sources — discarding the usable text of every other hit —
while never crashing (`process_query` is total). -/
theorem C9_amended_missing_payload_refusal (env : Env) (q : Str) (qv : Vec)
    (hits : List Hit) (h : Hit) (hemb : get_embedding env q = Except.ok qv)
    (hsearch : env.search qv 6 = Except.ok hits) (hmem : h ∈ hits)
    (hmiss : payloadText h.payload = none) :
    process_query env q = QueryResult.ok none refusalStr [] := by
  have hna : hasNA (contextEntry h) = true := by
    rw [contextEntry_of_noText h hmiss]
    exact hasNA_naEntry
  have h2 : hasNA (buildContext hits) = true :=
    hasNA_buildContext_of_mem hits h hmem hna
  rw [process_query_ok env q qv hits hemb hsearch]
  exact afterSearch_refusal env q hits (by rw [h2, Bool.or_true])

/-- C9 amended, witness at a concrete environment. -/
theorem C9_amended_witness :
    process_query envMissingPayload (("hours").toList) =
      QueryResult.ok none refusalStr [] :=
  C9_amended_missing_payload_refusal envMissingPayload (("hours").toList) [1]
    [hitNone, hitHello] hitNone rfl rfl (by decide) rfl

/-- C10: if at least one retrieved hit lacks a `text` key in its payload, or
any retrieved payload text holds the substring `N/A` anywhere, the handler
returns the refusal answer with empty sources, discarding every other hit's
usable text. -/
theorem C10_na_contamination_refusal (env : Env) (q : Str) (qv : Vec)
    (hits : List Hit) (hemb : get_embedding env q = Except.ok qv)
    (hsearch : env.search qv 6 = Except.ok hits)
    (hcond : (∃ h ∈ hits, payloadText h.payload = none) ∨
      ∃ h ∈ hits, ∃ t, payloadText h.payload = some t ∧ hasNA t = true) :
    process_query env q = QueryResult.ok none refusalStr [] := by
  have h2 : hasNA (buildContext hits) = true := by
    rcases hcond with ⟨h, hmem, hmiss⟩ | ⟨h, hmem, t, ht, hna⟩
    · refine hasNA_buildContext_of_mem hits h hmem ?_
      rw [contextEntry_of_noText h hmiss]
      exact hasNA_naEntry
    · exact hasNA_buildContext_of_mem hits h hmem
        (hasNA_contextEntry_of_text h t ht hna)
  rw [process_query_ok env q qv hits hemb hsearch]
  exact afterSearch_refusal env q hits (by rw [h2, Bool.or_true])

/-- C10 witness: one usable hit plus one hit whose payload text holds `N/A`
at a concrete environment. -/
theorem C10_witness :
    process_query envNAText (("q").toList) =
      QueryResult.ok none refusalStr [] :=
  C10_na_contamination_refusal envNAText (("q").toList) [1]
    [hitHello, hitNAText] rfl rfl
    (Or.inr ⟨hitNAText, by decide, (("fee: N/A today")).toList, rfl, by decide⟩)

end SIMS
